import Mathlib

/-!
Shallow embedding of the SkyCheck backend core (the alert engine of
src/utils/alerts.ts and the dashboard route of src/routes/dashboard.ts:
horizon classifier, series lookup, probability flags, target-time
resolution and the climatology response assembly), together with theorems
checking the natural-language specification against the code.

Modelling conventions:
- a JavaScript number that may be NaN, and a possibly-undefined number,
  are modelled as `Option ℚ` (`none` = non-finite or absent); finite
  values are rationals.  Comparisons against NaN are false, exactly as in
  JavaScript, via the `jge`/`jle`/`jlt` helpers below.
- instants are modelled as rationals; only their ordering and arithmetic
  matter to the claims.
- JavaScript string interpolation of a number is modelled with `toString`;
  no claim depends on the exact decimal rendering, only on the literal
  parts of the alert texts.  `Math.round` and `toFixed(0)` agree with
  Mathlib `round` (floor of x + 1/2, ties up).
-/

/-- Numeric value of a JavaScript expression that may be NaN or undefined;
`none` models a non-finite or absent value. -/
abbrev JSNum := Option ℚ

/-- Model of the JavaScript comparison `x >= c`; false when x is non-finite. -/
def jge (x : JSNum) (c : ℚ) : Bool :=
  match x with
  | some v => decide (c ≤ v)
  | none => false

/-- Model of `x <= c`; false when x is non-finite. -/
def jle (x : JSNum) (c : ℚ) : Bool :=
  match x with
  | some v => decide (v ≤ c)
  | none => false

/-- Model of `x < c`; false when x is non-finite. -/
def jlt (x : JSNum) (c : ℚ) : Bool :=
  match x with
  | some v => decide (v < c)
  | none => false

/-- AlertLevel of src/utils/alerts.ts. -/
inductive AlertLevel where
  | info
  | warning
  | danger
  deriving DecidableEq, Repr

/-- AlertItem of src/utils/alerts.ts; all fields except text are optional. -/
structure AlertItem where
  text : String
  level : Option AlertLevel := none
  href : Option String := none
  source : Option String := none
  deriving DecidableEq, Repr

/-- HourPoint of src/utils/alerts.ts (timeLocal is an HH:mm label). -/
structure HourPoint where
  timeLocal : String
  tempC : JSNum
  probPrecip1h_pct : JSNum
  precip1h_mm : JSNum
  uv_idx : JSNum
  deriving DecidableEq, Repr

/-- Worker for the run-merging scan `windows` of alerts.ts (identical to
`findConsecutiveWindows`).  `st` is the open-run start (`start = -1` in
the source is `none`); indices are absolute.  The source first updates
`start` and then tests `(!ok || i === hours.length - 1) && start !== -1`
in the same iteration; the cases below are that control flow flattened
per (state, predicate) case. -/
def windowsGo (pred : α → Bool) : ℕ → Option ℕ → List α → List (ℕ × ℕ)
  | _, _, [] => []
  | i, none, h :: rest =>
    if pred h then
      if rest.isEmpty then (i, i) :: windowsGo pred (i + 1) none rest
      else windowsGo pred (i + 1) (some i) rest
    else windowsGo pred (i + 1) none rest
  | i, some s, h :: rest =>
    if pred h then
      if rest.isEmpty then (s, i) :: windowsGo pred (i + 1) none rest
      else windowsGo pred (i + 1) (some s) rest
    else (s, i - 1) :: windowsGo pred (i + 1) none rest

/-- The `windows(hours, pred)` helper of alerts.ts. -/
def windows (hours : List α) (pred : α → Bool) : List (ℕ × ℕ) :=
  windowsGo pred 0 none hours

/-- The `join` helper of alerts.ts: first and last hour labels of a window
joined with an en dash, collapsed to one label when equal; out-of-range
lookups give the empty string (`hs[a]?.timeLocal ?? ''`). -/
def join (hs : List HourPoint) (a b : ℕ) : String :=
  let s := ((hs.get? a).map HourPoint.timeLocal).getD ""
  let e := ((hs.get? b).map HourPoint.timeLocal).getD ""
  if s = e then s else s ++ "–" ++ e

/-- Comma-joined list of window ranges, as in
`ws.map(w => join(hourly, w.a, w.b)).join(', ')`. -/
def rangesText (hourly : List HourPoint) (ws : List (ℕ × ℕ)) : String :=
  String.intercalate ", " (ws.map (fun w => join hourly w.1 w.2))

/-- Source string used by every alert of computeAlerts. -/
def srcName : String := "Meteomatics"

/-- Text of the UV window alert at the 8+ threshold (pushed at level
warning by the source). -/
def uvWarnText (ranges : String) : String :=
  "Very high UV (8+) " ++ (ranges ++ ".")

/-- Text of the UV window alert at the 6+ threshold (level info). -/
def uvInfoText (ranges : String) : String :=
  "High UV (6+) " ++ (ranges ++ ".")

/-- Text of the heat danger alert; r is `Math.round(hiC)`. -/
def heatDangerText (r : ℤ) : String :=
  "Extreme heat today (High ~ " ++ (toString r ++ "°C).")

/-- Text of the heat warning alert. -/
def heatWarnText (r : ℤ) : String :=
  "Very hot today (High ~ " ++ (toString r ++ "°C).")

/-- Text of the cold danger alert. -/
def coldDangerText (r : ℤ) : String :=
  "Severe cold (Low ~ " ++ (toString r ++ "°C).")

/-- Text of the cold warning alert. -/
def coldWarnText (r : ℤ) : String :=
  "Cold conditions (Low ~ " ++ (toString r ++ "°C).")

/-- Text of the rain danger window alert. -/
def rainDangerText (ranges : String) : String :=
  "Heavy rain risk (80%+ or 7 mm/h+) " ++ (ranges ++ ".")

/-- Text of the rain warning window alert. -/
def rainWarnText (ranges : String) : String :=
  "Rain likely (60%+) " ++ (ranges ++ ".")

/-- Text of the wind gust danger alert (raw number interpolation). -/
def gustDangerText (g : ℚ) : String :=
  "Damaging wind gusts " ++ (toString g ++ " km/h.")

/-- Text of the wind gust warning alert. -/
def gustWarnText (g : ℚ) : String :=
  "Strong wind gusts " ++ (toString g ++ " km/h.")

/-- Text of the air quality danger alert; r is the index through
`toFixed(0)`, i.e. rounded to an integer. -/
def aqDangerText (r : ℤ) : String :=
  "Air quality: Very Poor (PM2.5 index " ++ (toString r ++ ").")

/-- Text of the air quality warning alert. -/
def aqWarnText (r : ℤ) : String :=
  "Air quality: Poor (PM2.5 index " ++ (toString r ++ ").")

/-- UV rule of computeAlerts: windows at uv_idx >= 8 (UV_WARN) pushed at
level warning, else windows at uv_idx >= 6 (UV_INFO) at level info. -/
def uvPart (hourly : List HourPoint) : List AlertItem :=
  let uvDanger := windows hourly (fun h => jge h.uv_idx 8)
  if uvDanger.isEmpty then
    let uvInfo := windows hourly (fun h => jge h.uv_idx 6)
    if uvInfo.isEmpty then []
    else [{ text := uvInfoText (rangesText hourly uvInfo), level := some .info,
            source := some srcName }]
  else [{ text := uvWarnText (rangesText hourly uvDanger), level := some .warning,
          source := some srcName }]

/-- Heat rule: hiC >= 40 gives danger, else hiC >= 35 gives warning;
nothing when hiC is not finite. -/
def heatPart (hiC : JSNum) : List AlertItem :=
  match hiC with
  | none => []
  | some h =>
    if 40 ≤ h then
      [{ text := heatDangerText (round h), level := some .danger, source := some srcName }]
    else if 35 ≤ h then
      [{ text := heatWarnText (round h), level := some .warning, source := some srcName }]
    else []

/-- Cold rule: loC <= -5 gives danger, else loC <= 5 gives warning. -/
def coldPart (loC : JSNum) : List AlertItem :=
  match loC with
  | none => []
  | some l =>
    if l ≤ -5 then
      [{ text := coldDangerText (round l), level := some .danger, source := some srcName }]
    else if l ≤ 5 then
      [{ text := coldWarnText (round l), level := some .warning, source := some srcName }]
    else []

/-- Predicate of the rain danger windows: prob >= 80 or rate >= 7. -/
def rainDangerPred (h : HourPoint) : Bool :=
  jge h.probPrecip1h_pct 80 || jge h.precip1h_mm 7

/-- Predicate of the rain warning windows: prob >= 60 or rate >= 3. -/
def rainWarnPred (h : HourPoint) : Bool :=
  jge h.probPrecip1h_pct 60 || jge h.precip1h_mm 3

/-- Rain rule: danger windows first; their firing suppresses the warning
scan (the else branch of the source). -/
def rainPart (hourly : List HourPoint) : List AlertItem :=
  let rainDanger := windows hourly rainDangerPred
  if rainDanger.isEmpty then
    let rainWarn := windows hourly rainWarnPred
    if rainWarn.isEmpty then []
    else [{ text := rainWarnText (rangesText hourly rainWarn), level := some .warning,
            source := some srcName }]
  else [{ text := rainDangerText (rangesText hourly rainDanger), level := some .danger,
          source := some srcName }]

/-- Wind gust rule: gust >= 80 danger, else gust >= 60 warning. -/
def gustPart (gust_kmh : JSNum) : List AlertItem :=
  match gust_kmh with
  | none => []
  | some g =>
    if 80 ≤ g then
      [{ text := gustDangerText g, level := some .danger, source := some srcName }]
    else if 60 ≤ g then
      [{ text := gustWarnText g, level := some .warning, source := some srcName }]
    else []

/-- Air quality rule: index >= 4 danger, else index >= 3 warning. -/
def aqPart (aqi_pm25_idx : JSNum) : List AlertItem :=
  match aqi_pm25_idx with
  | none => []
  | some a =>
    if 4 ≤ a then
      [{ text := aqDangerText (round a), level := some .danger, source := some srcName }]
    else if 3 ≤ a then
      [{ text := aqWarnText (round a), level := some .warning, source := some srcName }]
    else []

/-- Dedup key: the JS key `level + "|" + text` determines the pair
(level, text) uniquely (the level text never contains a bar), so the key
is modelled as that pair. -/
def akey (a : AlertItem) : Option AlertLevel × String :=
  (a.level, a.text)

/-- Dedup filter at the end of computeAlerts: keep the first occurrence of
each (level, text) key. -/
def dedupGo (seen : List (Option AlertLevel × String)) : List AlertItem → List AlertItem
  | [] => []
  | a :: t =>
    if akey a ∈ seen then dedupGo seen t
    else a :: dedupGo (akey a :: seen) t

/-- Input record of computeAlerts; the optional scalars are undefined or
possibly NaN numbers (both fail Number.isFinite and are modelled none). -/
structure AlertOpts where
  hiC : JSNum := none
  loC : JSNum := none
  uv : JSNum := none
  gust_kmh : JSNum := none
  aqi_pm25_idx : JSNum := none
  hourly : List HourPoint

/-- computeAlerts of src/utils/alerts.ts: the six rules pushed in source
order (UV, heat, cold, rain, gust, air quality; the uv scalar is
destructured but never read by the source), then the dedup filter.  A
total function of its inputs. -/
def computeAlerts (opts : AlertOpts) : List AlertItem :=
  dedupGo [] (uvPart opts.hourly ++ heatPart opts.hiC ++ coldPart opts.loC ++
    rainPart opts.hourly ++ gustPart opts.gust_kmh ++ aqPart opts.aqi_pm25_idx)

/-- Horizon classifier of dashboard.ts: the route returns early with mode
climatology when `horizonDays > MAX_FORECAST_DAYS` (line 448), otherwise
the final payload sets `mode: horizonDays >= -0.5 ? 'forecast' : 'history'`
(line 627). -/
def classifyMode (horizonDays maxForecastDays : ℚ) : String :=
  if maxForecastDays < horizonDays then "climatology"
  else if -(1/2 : ℚ) ≤ horizonDays then "forecast"
  else "history"

/-- The `hasOffset` helper of dashboard.ts: the regex
`([Zz]|[+-]dd:dd)$` tested on the target string, i.e. the string ends in
Z, z, or a sign followed by two digits, a colon and two digits. -/
def hasOffset (s : String) : Bool :=
  let r := s.data.reverse
  (match r with
   | c :: _ => c == 'Z' || c == 'z'
   | [] => false) ||
  (match r with
   | m2 :: m1 :: c :: h2 :: h1 :: sg :: _ =>
     m2.isDigit && m1.isDigit && c == ':' && h2.isDigit && h1.isDigit &&
       (sg == '+' || sg == '-')
   | _ => false)

/-- Target resolution of dashboard.ts (lines 430 to 437) for a present
target string: with an explicit offset the string is parsed directly as an
instant; otherwise it is parsed naively and converted from wall-clock time
in the named zone.  The JavaScript Date parser and date-fns fromZonedTime
are abstracted as the function parameters. -/
def resolveTargetUTC (parse : String → ℚ) (fromZoned : ℚ → String → ℚ)
    (targetISO timezone : String) : ℚ :=
  if hasOffset targetISO then parse targetISO
  else fromZoned (parse targetISO) timezone

/-- Decide whether the first list is an initial segment of the second
(used to model anchored regex and substring tests on alert texts). -/
def leadsWith : List Char → List Char → Bool
  | [], _ => true
  | _ :: _, [] => false
  | a :: as, b :: bs => a == b && leadsWith as bs

/-- Decide whether the first list occurs contiguously in the second. -/
def subList (pat : List Char) : List Char → Bool
  | [] => pat.isEmpty
  | c :: rest => leadsWith pat (c :: rest) || subList pat rest

/-- Case-insensitive substring test; the needle is given in lower case. -/
def containsCI (needle hay : String) : Bool :=
  subList needle.data hay.toLower.data

/-- Error-signature test of dashboard.ts line 490: the case-insensitive
regex `not available at time|mix request failed` on the error message. -/
def sigMatch (msg : String) : Bool :=
  containsCI "not available at time" msg || containsCI "mix request failed" msg

/-- Parameter filter test of line 491: the case-insensitive regex
`air_quality|pm2p5` on a parameter name. -/
def aqMatch (p : String) : Bool :=
  containsCI "air_quality" p || containsCI "pm2p5" p

/-- Outcome of the instant query including its retry handling. -/
inductive InstantResult where
  | firstTry (v : ℚ)
  | retried (params : List String) (second : Except String ℚ)
  | fatal (msg : String)
  deriving Repr

/-- Instant fetch of dashboard.ts lines 481 to 504: the first provider
call either succeeds or fails with a message; on the documented failure
signature, and only when filtering the air-quality parameters actually
shrinks the set, one retry is issued with the filtered set (its outcome,
success or failure, is `second` and is never inspected for a further
retry); every other failure is rethrown. -/
def instantFetch (params : List String) (first second : Except String ℚ) : InstantResult :=
  match first with
  | .ok v => .firstTry v
  | .error msg =>
    if sigMatch msg then
      let filtered := params.filter (fun p => !aqMatch p)
      if filtered.length ≠ params.length then .retried filtered second
      else .fatal msg
    else .fatal msg

/-- The `valueAt` lookup of dashboard.ts lines 93 to 99: the point whose
time equals the query (string equality of normalized ISO dates is time
equality), else the last point at or before the query among the filtered
list, else NaN (modelled none).  Polymorphic in the stored value, which
the source never inspects. -/
def valueAt (arr : List (ℚ × β)) (q : ℚ) : Option β :=
  match arr.find? (fun p => p.1 == q) with
  | some p => some p.2
  | none => ((arr.filter (fun p => decide (p.1 ≤ q))).getLast?).map Prod.snd

/-- Rounding of `+x.toFixed(2)`: two decimals, ties up. -/
def round2 (x : ℚ) : ℚ :=
  ((round (x * 100) : ℤ) : ℚ) / 100

/-- The `pct` helper of dashboard.ts: `total ? +(count/total).toFixed(2) : 0`. -/
def pct (count total : ℕ) : ℚ :=
  if total = 0 then 0 else round2 ((count : ℚ) / (total : ℚ))

/-- Series data read by the probability-flag block of dashboard.ts lines
601 to 615: the raw per-parameter value lists, the assembled hourly
output rows and the instant relative humidity. -/
structure FlagInputs where
  temps : List JSNum
  precip : List JSNum
  prob : List JSNum
  uvs : List JSNum
  hourlyOut : List HourPoint
  rh : JSNum

/-- The six probability flags of the dashboard panel. -/
structure VeryFlags where
  veryWet : ℚ
  veryHot : ℚ
  veryCold : ℚ
  veryHumid : ℚ
  extremeRain : ℚ
  dangerousUV : ℚ
  deriving DecidableEq, Repr

/-- Probability-flag block of dashboard.ts lines 601 to 615.  Every flag
divides by `n = temps.length || 1`, the temperature series length floored
at one, not by the length of the series being counted. -/
def veryFlags (fi : FlagInputs) : VeryFlags :=
  let n := if fi.temps.length = 0 then 1 else fi.temps.length
  let extremeRain := pct (fi.precip.countP (fun x => jge x 7)) n
  let dangerousUV := pct (fi.uvs.countP (fun x => jge x 8)) n
  let veryHot := pct (fi.temps.countP (fun x => jge x 35)) n
  let veryCold := pct (fi.temps.countP (fun x => jle x 5)) n
  let veryWet := max extremeRain
    (if fi.prob.length = 0 then 0 else pct (fi.prob.countP (fun x => jge x 60)) n)
  let veryHumid := pct (fi.hourlyOut.countP
    (fun x => jge x.probPrecip1h_pct 50 || (jlt x.uv_idx 3 && jge fi.rh 70))) n
  { veryWet := veryWet, veryHot := veryHot, veryCold := veryCold,
    veryHumid := veryHumid, extremeRain := extremeRain, dangerousUV := dangerousUV }

/-- Fields of the buildClimatology result that the climatology branch of
the route reads (panel.hiC, panel.loC, panel.uv_index, panel.wind.gust_kmh). -/
structure ClimPanelMin where
  hiC : JSNum
  loC : JSNum
  uv_index : JSNum
  gust_kmh : JSNum
  deriving DecidableEq, Repr

/-- Output of buildClimatology as consumed by the route: panel fields and
the hourly rows. -/
structure ClimOut where
  panel : ClimPanelMin
  hourly : List HourPoint
  deriving DecidableEq, Repr

/-- The airQuality object of a dashboard response; overall_idx is none
when the route reports it as null / missing. -/
structure AirQualityOut where
  overall_idx : Option ℚ
  overall_text : String
  aq_hourly : List ℚ
  deriving DecidableEq, Repr

/-- The parts of the climatology-branch response relevant to the alert
and air-quality claims. -/
structure ClimResponse where
  mode : String
  panel : ClimPanelMin
  hourly : List HourPoint
  airQuality : AirQualityOut
  alerts : List AlertItem
  deriving DecidableEq, Repr

/-- Alert options built by the climatology branch (lines 451 to 458):
gust is passed through a Number.isFinite guard (identity on the Option
model) and the air-quality index is explicitly undefined. -/
def climAlertOpts (c : ClimOut) : AlertOpts :=
  { hiC := c.panel.hiC, loC := c.panel.loC, uv := c.panel.uv_index,
    gust_kmh := match c.panel.gust_kmh with
      | some g => some g
      | none => none,
    aqi_pm25_idx := none,
    hourly := c.hourly }

/-- Climatology-branch response assembly of dashboard.ts lines 460 to 468:
mode climatology, the airQuality object is the constant
`{ overall_idx: 0, overall_text: '—', hourly: [] }`, and the alerts are
exactly computeAlerts of the climatology panel and hourly rows. -/
def climatologyResponse (c : ClimOut) : ClimResponse :=
  { mode := "climatology",
    panel := c.panel,
    hourly := c.hourly,
    airQuality := { overall_idx := some 0, overall_text := "—", aq_hourly := [] },
    alerts := computeAlerts (climAlertOpts c) }

/-- Tags naming the six alert rules of computeAlerts. -/
inductive RuleTag where
  | uvR
  | heatR
  | coldR
  | rainR
  | gustR
  | aqR
  deriving DecidableEq, Repr

/-- Classify an alert text by the rule and tier that produced it, using
the literal openings of the twelve alert texts (any two distinct openings
differ within their common literal part, so the classification is
independent of the interpolated values). -/
def textRule (s : String) : Option (RuleTag × AlertLevel) :=
  let cs := s.data
  if leadsWith ("Extreme heat").data cs then some (.heatR, .danger)
  else if leadsWith ("Very hot").data cs then some (.heatR, .warning)
  else if leadsWith ("Severe cold").data cs then some (.coldR, .danger)
  else if leadsWith ("Cold conditions").data cs then some (.coldR, .warning)
  else if leadsWith ("Very high UV").data cs then some (.uvR, .warning)
  else if leadsWith ("High UV").data cs then some (.uvR, .info)
  else if leadsWith ("Heavy rain").data cs then some (.rainR, .danger)
  else if leadsWith ("Rain likely").data cs then some (.rainR, .warning)
  else if leadsWith ("Damaging wind").data cs then some (.gustR, .danger)
  else if leadsWith ("Strong wind").data cs then some (.gustR, .warning)
  else if leadsWith ("Air quality: Very Poor").data cs then some (.aqR, .danger)
  else if leadsWith ("Air quality: Poor").data cs then some (.aqR, .warning)
  else none

/-- Predicate naming the alerts of one rule and tier: the text classifies
to the tag and the level field is that tier. -/
def ruleTierP (rt : RuleTag) (lv : AlertLevel) (a : AlertItem) : Bool :=
  textRule a.text == some (rt, lv) && a.level == some lv

/-- Hourly sequence of the AlertEngine windowing scenario of the spec:
UV values 2, 2, 9, 9, 9, 2 across six consecutive hours. -/
def uvScenarioHourly : List HourPoint :=
  [{ timeLocal := "00:00", tempC := some 20, probPrecip1h_pct := some 0,
     precip1h_mm := some 0, uv_idx := some 2 },
   { timeLocal := "01:00", tempC := some 20, probPrecip1h_pct := some 0,
     precip1h_mm := some 0, uv_idx := some 2 },
   { timeLocal := "02:00", tempC := some 20, probPrecip1h_pct := some 0,
     precip1h_mm := some 0, uv_idx := some 9 },
   { timeLocal := "03:00", tempC := some 20, probPrecip1h_pct := some 0,
     precip1h_mm := some 0, uv_idx := some 9 },
   { timeLocal := "04:00", tempC := some 20, probPrecip1h_pct := some 0,
     precip1h_mm := some 0, uv_idx := some 9 },
   { timeLocal := "05:00", tempC := some 20, probPrecip1h_pct := some 0,
     precip1h_mm := some 0, uv_idx := some 2 }]

/-- Alert options of the UV windowing scenario: only the hourly series is
given, every scalar is absent. -/
def uvScenarioOpts : AlertOpts :=
  { hourly := uvScenarioHourly }

/-- Flag inputs on which the per-series divisor reading of the flag claim
fails: two temperature points but a four-point UV series with one point
at the dangerous-UV threshold. -/
def flagsDivisorExample : FlagInputs :=
  { temps := [some 10, some 10], precip := [], prob := [],
    uvs := [some 9, some 0, some 0, some 0], hourlyOut := [], rh := none }

/-- Climatology output with no data at all: no rule can fire on it. -/
def climQuietExample : ClimOut :=
  { panel := { hiC := none, loC := none, uv_index := some 0, gust_kmh := none },
    hourly := [] }

/-- Alert options for the tier-suppression witness: daily high 41, low
-10, gust 100, air-quality index 5, and one hour at rain probability 90. -/
def tierWitnessOpts : AlertOpts :=
  { hiC := some 41, loC := some (-10), uv := none, gust_kmh := some 100,
    aqi_pm25_idx := some 5,
    hourly := [{ timeLocal := "10:00", tempC := some 20, probPrecip1h_pct := some 90,
                 precip1h_mm := some 10, uv_idx := some 2 }] }

/-- Hourly series with one point per hour 0 to 23; the value stored at
hour h is h itself, so lookups are visible in the result. -/
def hourSeries24 : List (ℚ × ℚ) :=
  (List.range 24).map (fun i => ((i : ℚ), (i : ℚ)))

/-- Flag inputs with a four-point temperature series of which one point
meets the very-hot predicate. -/
def flagsQuarterExample : FlagInputs :=
  { temps := [some 36, some 20, some 20, some 20], precip := [], prob := [],
    uvs := [], hourlyOut := [], rh := none }

/-- Flag inputs with every series empty. -/
def flagsEmptyExample : FlagInputs :=
  { temps := [], precip := [], prob := [], uvs := [], hourlyOut := [], rh := none }

/-- Claim C1, counterexample: on the hourly sequence with UV values
2, 2, 9, 9, 9, 2 and danger UV threshold 8, computeAlerts produces no
danger-level alert at all — the single UV alert it emits carries level
warning, so the claimed danger-level UV alert does not exist. -/
theorem uv_scenario_no_danger_alert :
    ¬ ∃ a ∈ computeAlerts uvScenarioOpts, a.level = some AlertLevel.danger := by
  decide

/-- Claim C1 (amended): on the hourly sequence with UV values
2, 2, 9, 9, 9, 2 and danger UV threshold 8, computeAlerts produces
exactly one UV alert, at level warning, whose text references the single
3-hour contiguous window as the first and last hour labels joined into
one range — not three separate alerts, and no additional UV alert. -/
theorem uv_scenario_single_window_alert :
    windows uvScenarioHourly (fun h => jge h.uv_idx 8) = [(2, 4)] ∧
    join uvScenarioHourly 2 4 = "02:00–04:00" ∧
    computeAlerts uvScenarioOpts =
      [{ text := uvWarnText (join uvScenarioHourly 2 4),
         level := some AlertLevel.warning, href := none, source := some srcName }] := by
  refine ⟨by decide, by decide, by decide⟩

/-- Claim C3: with horizonDays the fractional distance in days from now
to the target instant, the served mode is history exactly when
horizonDays < -0.5, forecast exactly when -0.5 ≤ horizonDays ≤
maxForecastDays, and climatology exactly when horizonDays >
maxForecastDays, for any max-forecast horizon of at least -0.5 (the
configured value is 14). -/
theorem classifyMode_cases (d maxF : ℚ) (hm : -(1/2 : ℚ) ≤ maxF) :
    (classifyMode d maxF = "history" ↔ d < -(1/2 : ℚ)) ∧
    (classifyMode d maxF = "forecast" ↔ (-(1/2 : ℚ) ≤ d ∧ d ≤ maxF)) ∧
    (classifyMode d maxF = "climatology" ↔ maxF < d) := by
  have hfh : ("forecast" : String) ≠ "history" := by decide
  have hch : ("climatology" : String) ≠ "history" := by decide
  have hcf : ("climatology" : String) ≠ "forecast" := by decide
  have hhf : ("history" : String) ≠ "forecast" := by decide
  have hhc : ("history" : String) ≠ "climatology" := by decide
  have hfc : ("forecast" : String) ≠ "climatology" := by decide
  unfold classifyMode
  split_ifs with h1 h2
  · exact ⟨⟨fun h => absurd h hch, fun h => by linarith⟩,
      ⟨fun h => absurd h hcf, fun h => by linarith [h.2]⟩,
      ⟨fun _ => h1, fun _ => rfl⟩⟩
  · exact ⟨⟨fun h => absurd h hfh, fun h => by linarith⟩,
      ⟨fun _ => ⟨h2, by linarith⟩, fun _ => rfl⟩,
      ⟨fun h => absurd h hfc, fun h => absurd h h1⟩⟩
  · exact ⟨⟨fun _ => by linarith, fun _ => rfl⟩,
      ⟨fun h => absurd h hhf, fun h => absurd h.1 h2⟩,
      ⟨fun h => absurd h hhc, fun h => absurd h h1⟩⟩

/-- Witness for the horizon classifier cases at concrete horizons: 20
days ahead with a 14-day horizon serves climatology, 3 days ahead serves
forecast, one day in the past serves history. -/
theorem classifyMode_cases_witness :
    classifyMode 20 14 = "climatology" ∧ classifyMode 3 14 = "forecast" ∧
    classifyMode (-1) 14 = "history" :=
  ⟨(classifyMode_cases 20 14 (by norm_num)).2.2.mpr (by norm_num),
   (classifyMode_cases 3 14 (by norm_num)).2.1.mpr (by norm_num),
   (classifyMode_cases (-1) 14 (by norm_num)).1.mpr (by norm_num)⟩

/-- Claim C6: a target string with explicit offset information (trailing
Z or sign-hh:mm, the hasOffset test) resolves to the directly parsed
instant, independently of the named time zone; an offset-free target
string is interpreted as wall-clock time in the named zone. -/
theorem resolveTargetUTC_offset_literal (parse : String → ℚ)
    (fromZoned : ℚ → String → ℚ) (t tz tz' : String) :
    (hasOffset t = true →
      resolveTargetUTC parse fromZoned t tz = parse t ∧
      resolveTargetUTC parse fromZoned t tz = resolveTargetUTC parse fromZoned t tz') ∧
    (hasOffset t = false →
      resolveTargetUTC parse fromZoned t tz = fromZoned (parse t) tz) := by
  unfold resolveTargetUTC
  constructor
  · intro h
    simp [h]
  · intro h
    simp [h]

/-- Witness for the offset-literal resolution: a Zulu-suffixed target and
an offset-suffixed target resolve through the direct parse regardless of
zone, and an offset-free target goes through the zone conversion. -/
theorem resolveTargetUTC_offset_literal_witness :
    resolveTargetUTC (fun _ => 5) (fun v _ => v + 1) "2026-01-01T12:00:00Z" "America/Mazatlan" = 5 ∧
    resolveTargetUTC (fun _ => 7) (fun v _ => v + 1) "2026-01-01T12:00:00+05:30" "America/Mazatlan" = 7 ∧
    resolveTargetUTC (fun _ => 5) (fun v _ => v + 1) "2026-01-01T12:00:00" "America/Mazatlan" = 5 + 1 :=
  ⟨((resolveTargetUTC_offset_literal (fun _ => 5) (fun v _ => v + 1)
      "2026-01-01T12:00:00Z" "America/Mazatlan" "UTC").1 (by decide)).1,
   ((resolveTargetUTC_offset_literal (fun _ => 7) (fun v _ => v + 1)
      "2026-01-01T12:00:00+05:30" "America/Mazatlan" "UTC").1 (by decide)).1,
   (resolveTargetUTC_offset_literal (fun _ => 5) (fun v _ => v + 1)
      "2026-01-01T12:00:00" "America/Mazatlan" "UTC").2 (by decide)⟩

/-- Filtering keeps the full length exactly when every element passes the
filter. -/
theorem length_filter_eq_length_iff_all (f : α → Bool) (l : List α) :
    (l.filter f).length = l.length ↔ ∀ a ∈ l, f a = true := by
  induction l with
  | nil => simp
  | cons a t ih =>
    by_cases h : f a = true
    · simp [List.filter_cons, h, ih]
    · have hb : f a = false := by simpa using h
      have hle := List.length_filter_le f t
      simp only [List.filter_cons, hb, Bool.false_eq_true, if_false, List.length_cons]
      constructor
      · intro hl
        omega
      · intro hall
        exact absurd (hall a (by simp)) h

/-- Claim C4: the instant query is retried, exactly once and with the
air-quality parameters filtered out, if and only if the first call fails
with a message matching the documented signature and the requested set
contains an air-quality parameter; every other failure of the first call
is fatal, and a success is served directly. -/
theorem instantFetch_retry_iff (params : List String) (msg : String)
    (second : Except String ℚ) :
    (instantFetch params (.error msg) second =
        .retried (params.filter (fun p => !aqMatch p)) second ↔
      (sigMatch msg = true ∧ ∃ p ∈ params, aqMatch p = true)) ∧
    (instantFetch params (.error msg) second = .fatal msg ↔
      ¬ (sigMatch msg = true ∧ ∃ p ∈ params, aqMatch p = true)) ∧
    (∀ v : ℚ, instantFetch params (.ok v) second = .firstTry v) := by
  have hkey : ((params.filter (fun p => !aqMatch p)).length ≠ params.length) ↔
      (∃ p ∈ params, aqMatch p = true) := by
    rw [Ne, length_filter_eq_length_iff_all]
    simp [Bool.not_eq_true]
  refine ⟨?_, ?_, fun v => rfl⟩
  · by_cases hs : sigMatch msg = true
    · by_cases hex : ∃ p ∈ params, aqMatch p = true
      · simp [instantFetch, hs, hkey.mpr hex, hex]
      · have hf : ¬ (params.filter (fun p => !aqMatch p)).length ≠ params.length :=
          fun h => hex (hkey.mp h)
        simp [instantFetch, hs, hf, hex]
    · have hs' : sigMatch msg = false := by simpa using hs
      simp [instantFetch, hs', hs]
  · by_cases hs : sigMatch msg = true
    · by_cases hex : ∃ p ∈ params, aqMatch p = true
      · simp [instantFetch, hs, hkey.mpr hex, hex]
      · have hf : ¬ (params.filter (fun p => !aqMatch p)).length ≠ params.length :=
          fun h => hex (hkey.mp h)
        simp [instantFetch, hs, hf, hex]
    · have hs' : sigMatch msg = false := by simpa using hs
      simp [instantFetch, hs', hs]

/-- Claim C5, counterexample: with two temperature points and a four-point
UV series of which one point meets the dangerous-UV predicate, the
dangerousUV flag is 0.5 (count divided by the temperature-series length),
not the per-series ratio 0.25 claimed. -/
theorem veryFlags_per_series_divisor_fails :
    (veryFlags flagsDivisorExample).dangerousUV ≠
      round2 ((flagsDivisorExample.uvs.countP (fun x => jge x 8) : ℚ) /
        (flagsDivisorExample.uvs.length : ℚ)) ∧
    (veryFlags flagsDivisorExample).dangerousUV = 1/2 := by
  have hval : (veryFlags flagsDivisorExample).dangerousUV = 1/2 := by
    simp only [veryFlags, flagsDivisorExample, pct, round2]
    norm_num [jge, round_eq]
  have hother : round2 ((flagsDivisorExample.uvs.countP (fun x => jge x 8) : ℚ) /
      (flagsDivisorExample.uvs.length : ℚ)) = 1/4 := by
    simp only [flagsDivisorExample, round2]
    norm_num [jge, round_eq]
  refine ⟨?_, hval⟩
  rw [hval, hother]
  norm_num

/-- Claim C5 (amended): every probability flag divides its satisfying
count by the temperature-series point count floored at one
(`n = temps.length || 1`), rounded to two decimals — not by the counted
series own point count; veryWet is the maximum of extremeRain and the
probability-based fraction (0 when the probability series is empty), and
veryHumid counts the assembled hourly rows with its compound predicate.
For the temperature-based flags this agrees with the per-series reading:
a four-point temperature series with one very-hot point gives 0.25, and
empty series give 0. -/
theorem veryFlags_formula (fi : FlagInputs) :
    ((veryFlags fi).veryHot =
      round2 ((fi.temps.countP (fun x => jge x 35) : ℚ) / (max 1 fi.temps.length : ℕ)) ∧
     (veryFlags fi).veryCold =
      round2 ((fi.temps.countP (fun x => jle x 5) : ℚ) / (max 1 fi.temps.length : ℕ)) ∧
     (veryFlags fi).extremeRain =
      round2 ((fi.precip.countP (fun x => jge x 7) : ℚ) / (max 1 fi.temps.length : ℕ)) ∧
     (veryFlags fi).dangerousUV =
      round2 ((fi.uvs.countP (fun x => jge x 8) : ℚ) / (max 1 fi.temps.length : ℕ)) ∧
     (veryFlags fi).veryWet =
      max (veryFlags fi).extremeRain
        (if fi.prob.length = 0 then 0
         else round2 ((fi.prob.countP (fun x => jge x 60) : ℚ) / (max 1 fi.temps.length : ℕ))) ∧
     (veryFlags fi).veryHumid =
      round2 ((fi.hourlyOut.countP
          (fun x => jge x.probPrecip1h_pct 50 || (jlt x.uv_idx 3 && jge fi.rh 70)) : ℚ) /
        (max 1 fi.temps.length : ℕ))) ∧
    (veryFlags flagsQuarterExample).veryHot = 1/4 ∧
    (veryFlags flagsEmptyExample).veryHot = 0 := by
  have hmax : (if fi.temps.length = 0 then 1 else fi.temps.length) = max 1 fi.temps.length := by
    rcases Nat.eq_zero_or_pos fi.temps.length with h | h
    · simp [h]
    · rw [if_neg (by omega)]
      omega
  have hn : (if fi.temps.length = 0 then 1 else fi.temps.length) ≠ 0 := by
    split_ifs <;> omega
  have hq : (veryFlags flagsQuarterExample).veryHot = 1/4 := by
    simp only [veryFlags, flagsQuarterExample, pct, round2]
    norm_num [jge, round_eq]
  have he : (veryFlags flagsEmptyExample).veryHot = 0 := by
    simp only [veryFlags, flagsEmptyExample, pct, round2]
    norm_num [jge, round_eq]
  refine ⟨⟨?_, ?_, ?_, ?_, ?_, ?_⟩, hq, he⟩ <;>
    simp only [veryFlags, pct, hmax, if_neg (hmax ▸ hn)]

/-- Claim C2, counterexample: on a climatology output with no data at all
no threshold rule fires, yet the response reports the air-quality overall
index as the number 0 (not missing) and its alert list is empty — there
is no informational no-significant-alerts entry. -/
theorem climatology_quiet_response_cex :
    ¬ ((climatologyResponse climQuietExample).airQuality.overall_idx = none ∧
       ∃ a ∈ (climatologyResponse climQuietExample).alerts,
         a.level = some AlertLevel.info) ∧
    (climatologyResponse climQuietExample).alerts = [] ∧
    (climatologyResponse climQuietExample).airQuality.overall_idx = some 0 := by
  refine ⟨?_, by decide, by decide⟩
  rintro ⟨h, -⟩
  simp [climatologyResponse] at h

/-- Claim C2 (amended): every climatology-mode response carries the
constant air-quality placeholder (index 0, text an em dash) rather than a
missing index, and when no threshold rule fires its alert list is exactly
empty: the informational no-significant-alerts entry exists only in the
unused buildAlerts variant, not in the computeAlerts path the route uses. -/
theorem climatologyResponse_no_info_fallback (c : ClimOut)
    (hquiet : computeAlerts (climAlertOpts c) = []) :
    (climatologyResponse c).alerts = [] ∧
    (climatologyResponse c).airQuality.overall_idx = some 0 ∧
    (climatologyResponse c).airQuality.overall_text = "—" :=
  ⟨hquiet, rfl, rfl⟩

/-- Witness for the climatology response shape on the concrete quiet
climatology output. -/
theorem climatologyResponse_no_info_fallback_witness :
    (climatologyResponse climQuietExample).alerts = [] ∧
    (climatologyResponse climQuietExample).airQuality.overall_idx = some 0 ∧
    (climatologyResponse climQuietExample).airQuality.overall_text = "—" :=
  climatologyResponse_no_info_fallback climQuietExample (by decide)

/-- The dedup filter returns a sublist of its input. -/
theorem dedupGo_sublist (seen : List (Option AlertLevel × String)) (l : List AlertItem) :
    (dedupGo seen l).Sublist l := by
  induction l generalizing seen with
  | nil => simp [dedupGo]
  | cons a t ih =>
    unfold dedupGo
    by_cases h : akey a ∈ seen
    · simp only [if_pos h]
      exact (ih seen).cons a
    · simp only [if_neg h]
      exact (ih (akey a :: seen)).cons₂ a

/-- The UV rule emits at most one alert. -/
theorem uvPart_length_le (hourly : List HourPoint) : (uvPart hourly).length ≤ 1 := by
  unfold uvPart
  dsimp only
  split_ifs <;> simp

/-- The heat rule emits at most one alert. -/
theorem heatPart_length_le (hiC : JSNum) : (heatPart hiC).length ≤ 1 := by
  rcases hiC with _ | h
  · simp [heatPart]
  · simp only [heatPart]
    split_ifs <;> simp

/-- The cold rule emits at most one alert. -/
theorem coldPart_length_le (loC : JSNum) : (coldPart loC).length ≤ 1 := by
  rcases loC with _ | l
  · simp [coldPart]
  · simp only [coldPart]
    split_ifs <;> simp

/-- The rain rule emits at most one alert. -/
theorem rainPart_length_le (hourly : List HourPoint) : (rainPart hourly).length ≤ 1 := by
  unfold rainPart
  dsimp only
  split_ifs <;> simp

/-- The gust rule emits at most one alert. -/
theorem gustPart_length_le (g : JSNum) : (gustPart g).length ≤ 1 := by
  rcases g with _ | g
  · simp [gustPart]
  · simp only [gustPart]
    split_ifs <;> simp

/-- The air-quality rule emits at most one alert. -/
theorem aqPart_length_le (a : JSNum) : (aqPart a).length ≤ 1 := by
  rcases a with _ | a
  · simp [aqPart]
  · simp only [aqPart]
    split_ifs <;> simp

/-- Claim C9: computeAlerts is a total function — for every combination
of hourly sequence and optional scalars, including an empty sequence and
all scalars missing or non-finite, it returns an alert list; the list has
at most one alert per rule, hence at most six alerts. -/
theorem computeAlerts_total (opts : AlertOpts) :
    ∃ alerts : List AlertItem, computeAlerts opts = alerts ∧ alerts.length ≤ 6 := by
  refine ⟨computeAlerts opts, rfl, ?_⟩
  have hsub : (computeAlerts opts).length ≤
      (uvPart opts.hourly ++ heatPart opts.hiC ++ coldPart opts.loC ++
        rainPart opts.hourly ++ gustPart opts.gust_kmh ++ aqPart opts.aqi_pm25_idx).length :=
    (dedupGo_sublist [] _).length_le
  have h1 := uvPart_length_le opts.hourly
  have h2 := heatPart_length_le opts.hiC
  have h3 := coldPart_length_le opts.loC
  have h4 := rainPart_length_le opts.hourly
  have h5 := gustPart_length_le opts.gust_kmh
  have h6 := aqPart_length_le opts.aqi_pm25_idx
  simp only [List.length_append] at hsub
  omega

/-- In a series sorted strictly by time, membership plus equal times
forces equal points. -/
theorem pairwise_fst_uniq {arr : List (ℚ × β)}
    (hs : arr.Pairwise (fun p r => p.1 < r.1)) {a b : ℚ × β}
    (ha : a ∈ arr) (hb : b ∈ arr) (heq : a.1 = b.1) : a = b := by
  induction arr with
  | nil => cases ha
  | cons x t ih =>
    rcases List.pairwise_cons.mp hs with ⟨hx, ht⟩
    rcases List.mem_cons.mp ha with ha1 | ha1 <;> rcases List.mem_cons.mp hb with hb1 | hb1
    · rw [ha1, hb1]
    · exact absurd heq (by rw [ha1]; exact ne_of_lt (hx b hb1))
    · exact absurd heq (by rw [hb1]; exact ne_of_gt (hx a ha1))
    · exact ih ht ha1 hb1

/-- Prepending to a nonempty list keeps its last element. -/
theorem getLast?_cons_of_ne_nil (a : α) {l : List α} (h : l ≠ []) :
    (a :: l).getLast? = l.getLast? := by
  cases l with
  | nil => exact absurd rfl h
  | cons b t => exact List.getLast?_cons_cons

/-- In a strictly sorted series, if p passes the filter and everything
after p fails it, then p is the last element of the filtered list. -/
theorem filter_getLast_of_max {l : List (ℚ × β)} (f : ℚ × β → Bool)
    (hs : l.Pairwise (fun p r => p.1 < r.1)) {p : ℚ × β} (hp : p ∈ l)
    (hfp : f p = true) (hafter : ∀ r ∈ l, p.1 < r.1 → f r = false) :
    (l.filter f).getLast? = some p := by
  induction l with
  | nil => cases hp
  | cons x t ih =>
    rcases List.pairwise_cons.mp hs with ⟨hx, ht⟩
    rcases List.mem_cons.mp hp with hpx | hpt
    · subst hpx
      have hft : t.filter f = [] := by
        rw [List.filter_eq_nil_iff]
        intro r hr
        simp [hafter r (List.mem_cons_of_mem _ hr) (hx r hr)]
      rw [List.filter_cons, if_pos hfp, hft]
      rfl
    · have hrec := ih ht hpt (fun r hr hlt => hafter r (List.mem_cons_of_mem _ hr) hlt)
      have hne : t.filter f ≠ [] := by
        intro h0
        rw [h0] at hrec
        simp at hrec
      rw [List.filter_cons]
      by_cases hfx : f x = true
      · rw [if_pos hfx, getLast?_cons_of_ne_nil x hne]
        exact hrec
      · rw [if_neg hfx]
        exact hrec

/-- Claim C7: for a series strictly sorted by time, valueAt returns the
value of the point whose time equals the query instant when one exists,
else the value of the latest point strictly before it, else the missing
sentinel; in particular, on the hour series 0..23 a query at hour 2.5
returns the hour-2 value and a query before hour 0 returns missing. -/
theorem valueAt_exact_or_nearest_before :
    (∀ (arr : List (ℚ × ℚ)) (q : ℚ), arr.Pairwise (fun p r => p.1 < r.1) →
      (∀ p ∈ arr, p.1 = q → valueAt arr q = some p.2) ∧
      ((∀ p ∈ arr, p.1 ≠ q) → ∀ p ∈ arr, p.1 < q →
        (∀ r ∈ arr, r.1 < q → r.1 ≤ p.1) → valueAt arr q = some p.2) ∧
      ((∀ p ∈ arr, q < p.1) → valueAt arr q = none)) ∧
    valueAt hourSeries24 (5/2) = some 2 ∧
    valueAt hourSeries24 (-1) = none := by
  have h52 : (5/2 : ℚ) = mkRat 5 2 := by norm_num [Rat.mkRat_eq_div]
  refine ⟨?_, by rw [h52]; decide, by decide⟩
  intro arr q hs
  refine ⟨?_, ?_, ?_⟩
  · intro p hp heq
    cases hfind : arr.find? (fun r => r.1 == q) with
    | none =>
      exfalso
      have := List.find?_eq_none.mp hfind p hp
      simp [heq] at this
    | some pf =>
      have hpq : pf.1 = q := by
        have := List.find?_some hfind
        simpa using this
      have hpfmem := List.mem_of_find?_eq_some hfind
      have hpp : pf = p := pairwise_fst_uniq hs hpfmem hp (by rw [hpq, heq])
      rw [← hpp]
      simp only [valueAt, hfind]
  · intro hne p hp hlt hmax
    have hfind : arr.find? (fun r => r.1 == q) = none := by
      rw [List.find?_eq_none]
      intro x hx
      simpa using hne x hx
    have hlast := filter_getLast_of_max (fun r => decide (r.1 ≤ q)) hs hp
      (by simp [le_of_lt hlt])
      (fun r hr hgt => by
        simp only [decide_eq_false_iff_not]
        intro hle
        rcases lt_or_eq_of_le hle with hlt2 | heq2
        · exact absurd (hmax r hr hlt2) (not_le.mpr hgt)
        · exact hne r hr heq2)
    simp only [valueAt, hfind, hlast]
    rfl
  · intro hall
    have hfind : arr.find? (fun r => r.1 == q) = none := by
      rw [List.find?_eq_none]
      intro x hx
      simpa using ne_of_gt (hall x hx)
    have hfilt : arr.filter (fun r => decide (r.1 ≤ q)) = [] := by
      rw [List.filter_eq_nil_iff]
      intro a ha
      simpa using not_le.mpr (hall a ha)
    simp [valueAt, hfind, hfilt]

/-- Witness for the series lookup on a concrete three-point series: an
exact hit at time 1 returns its value. -/
theorem valueAt_exact_or_nearest_before_witness :
    valueAt [((0 : ℚ), (10 : ℚ)), (1, 11), (2, 12)] 1 = some 11 :=
  (valueAt_exact_or_nearest_before.1 [((0 : ℚ), (10 : ℚ)), (1, 11), (2, 12)] 1
    (by decide)).1 (1, 11) (by decide) rfl

/-- An initial segment of a list is an initial segment of any extension. -/
theorem leadsWith_append_of_true {p l : List Char} (h : leadsWith p l = true)
    (t : List Char) : leadsWith p (l ++ t) = true := by
  induction p generalizing l with
  | nil => simp [leadsWith]
  | cons a as ih =>
    cases l with
    | nil => simp [leadsWith] at h
    | cons b bs =>
      simp only [leadsWith, Bool.and_eq_true] at h
      simp only [List.cons_append, leadsWith, Bool.and_eq_true]
      exact ⟨h.1, ih h.2⟩

/-- If a pattern already mismatches within the first part of a list, it
mismatches on any extension of that part. -/
theorem leadsWith_stop {p l : List Char} (h : leadsWith (p.take l.length) l = false)
    (t : List Char) : leadsWith p (l ++ t) = false := by
  induction p generalizing l with
  | nil => simp [leadsWith] at h
  | cons a as ih =>
    cases l with
    | nil => simp [leadsWith] at h
    | cons b bs =>
      rw [List.length_cons, List.take_succ_cons] at h
      by_cases hab : (a == b) = true
      · have h2 : leadsWith (as.take bs.length) bs = false := by
          simpa [leadsWith, hab] using h
        simp [List.cons_append, leadsWith, hab, ih h2]
      · have hab' : (a == b) = false := by simpa using hab
        simp [List.cons_append, leadsWith, hab']

/-- String form of leadsWith_stop for a literal prefix followed by an
arbitrary rest. -/
theorem leadsWith_string_false (pat p r : String)
    (h : leadsWith (pat.data.take p.data.length) p.data = false) :
    leadsWith pat.data ((p ++ r).data) = false := by
  rw [String.data_append]
  exact leadsWith_stop h _

/-- String form of leadsWith_append_of_true. -/
theorem leadsWith_string_true (pat p r : String)
    (h : leadsWith pat.data p.data = true) :
    leadsWith pat.data ((p ++ r).data) = true := by
  rw [String.data_append]
  exact leadsWith_append_of_true h _

/-- Text classification: heatDangerText is recognised as the (heatR, danger)
text for every interpolated value. -/
theorem textRule_heatDangerText (r : ℤ) :
    textRule (heatDangerText r) = some (.heatR, .danger) := by
  unfold heatDangerText
  have h1 := leadsWith_string_true ("Extreme heat") ("Extreme heat today (High ~ ") (toString r ++ "°C).") (by decide)
  simp only [textRule, h1, Bool.false_eq_true, if_false, if_true]

/-- Text classification: heatWarnText is recognised as the (heatR, warning)
text for every interpolated value. -/
theorem textRule_heatWarnText (r : ℤ) :
    textRule (heatWarnText r) = some (.heatR, .warning) := by
  unfold heatWarnText
  have h1 := leadsWith_string_false ("Extreme heat") ("Very hot today (High ~ ") (toString r ++ "°C).") (by decide)
  have h2 := leadsWith_string_true ("Very hot") ("Very hot today (High ~ ") (toString r ++ "°C).") (by decide)
  simp only [textRule, h1, h2, Bool.false_eq_true, if_false, if_true]

/-- Text classification: coldDangerText is recognised as the (coldR, danger)
text for every interpolated value. -/
theorem textRule_coldDangerText (r : ℤ) :
    textRule (coldDangerText r) = some (.coldR, .danger) := by
  unfold coldDangerText
  have h1 := leadsWith_string_false ("Extreme heat") ("Severe cold (Low ~ ") (toString r ++ "°C).") (by decide)
  have h2 := leadsWith_string_false ("Very hot") ("Severe cold (Low ~ ") (toString r ++ "°C).") (by decide)
  have h3 := leadsWith_string_true ("Severe cold") ("Severe cold (Low ~ ") (toString r ++ "°C).") (by decide)
  simp only [textRule, h1, h2, h3, Bool.false_eq_true, if_false, if_true]

/-- Text classification: coldWarnText is recognised as the (coldR, warning)
text for every interpolated value. -/
theorem textRule_coldWarnText (r : ℤ) :
    textRule (coldWarnText r) = some (.coldR, .warning) := by
  unfold coldWarnText
  have h1 := leadsWith_string_false ("Extreme heat") ("Cold conditions (Low ~ ") (toString r ++ "°C).") (by decide)
  have h2 := leadsWith_string_false ("Very hot") ("Cold conditions (Low ~ ") (toString r ++ "°C).") (by decide)
  have h3 := leadsWith_string_false ("Severe cold") ("Cold conditions (Low ~ ") (toString r ++ "°C).") (by decide)
  have h4 := leadsWith_string_true ("Cold conditions") ("Cold conditions (Low ~ ") (toString r ++ "°C).") (by decide)
  simp only [textRule, h1, h2, h3, h4, Bool.false_eq_true, if_false, if_true]

/-- Text classification: uvWarnText is recognised as the (uvR, warning)
text for every interpolated value. -/
theorem textRule_uvWarnText (rs : String) :
    textRule (uvWarnText rs) = some (.uvR, .warning) := by
  unfold uvWarnText
  have h1 := leadsWith_string_false ("Extreme heat") ("Very high UV (8+) ") (rs ++ ".") (by decide)
  have h2 := leadsWith_string_false ("Very hot") ("Very high UV (8+) ") (rs ++ ".") (by decide)
  have h3 := leadsWith_string_false ("Severe cold") ("Very high UV (8+) ") (rs ++ ".") (by decide)
  have h4 := leadsWith_string_false ("Cold conditions") ("Very high UV (8+) ") (rs ++ ".") (by decide)
  have h5 := leadsWith_string_true ("Very high UV") ("Very high UV (8+) ") (rs ++ ".") (by decide)
  simp only [textRule, h1, h2, h3, h4, h5, Bool.false_eq_true, if_false, if_true]

/-- Text classification: uvInfoText is recognised as the (uvR, info)
text for every interpolated value. -/
theorem textRule_uvInfoText (rs : String) :
    textRule (uvInfoText rs) = some (.uvR, .info) := by
  unfold uvInfoText
  have h1 := leadsWith_string_false ("Extreme heat") ("High UV (6+) ") (rs ++ ".") (by decide)
  have h2 := leadsWith_string_false ("Very hot") ("High UV (6+) ") (rs ++ ".") (by decide)
  have h3 := leadsWith_string_false ("Severe cold") ("High UV (6+) ") (rs ++ ".") (by decide)
  have h4 := leadsWith_string_false ("Cold conditions") ("High UV (6+) ") (rs ++ ".") (by decide)
  have h5 := leadsWith_string_false ("Very high UV") ("High UV (6+) ") (rs ++ ".") (by decide)
  have h6 := leadsWith_string_true ("High UV") ("High UV (6+) ") (rs ++ ".") (by decide)
  simp only [textRule, h1, h2, h3, h4, h5, h6, Bool.false_eq_true, if_false, if_true]

/-- Text classification: rainDangerText is recognised as the (rainR, danger)
text for every interpolated value. -/
theorem textRule_rainDangerText (rs : String) :
    textRule (rainDangerText rs) = some (.rainR, .danger) := by
  unfold rainDangerText
  have h1 := leadsWith_string_false ("Extreme heat") ("Heavy rain risk (80%+ or 7 mm/h+) ") (rs ++ ".") (by decide)
  have h2 := leadsWith_string_false ("Very hot") ("Heavy rain risk (80%+ or 7 mm/h+) ") (rs ++ ".") (by decide)
  have h3 := leadsWith_string_false ("Severe cold") ("Heavy rain risk (80%+ or 7 mm/h+) ") (rs ++ ".") (by decide)
  have h4 := leadsWith_string_false ("Cold conditions") ("Heavy rain risk (80%+ or 7 mm/h+) ") (rs ++ ".") (by decide)
  have h5 := leadsWith_string_false ("Very high UV") ("Heavy rain risk (80%+ or 7 mm/h+) ") (rs ++ ".") (by decide)
  have h6 := leadsWith_string_false ("High UV") ("Heavy rain risk (80%+ or 7 mm/h+) ") (rs ++ ".") (by decide)
  have h7 := leadsWith_string_true ("Heavy rain") ("Heavy rain risk (80%+ or 7 mm/h+) ") (rs ++ ".") (by decide)
  simp only [textRule, h1, h2, h3, h4, h5, h6, h7, Bool.false_eq_true, if_false, if_true]

/-- Text classification: rainWarnText is recognised as the (rainR, warning)
text for every interpolated value. -/
theorem textRule_rainWarnText (rs : String) :
    textRule (rainWarnText rs) = some (.rainR, .warning) := by
  unfold rainWarnText
  have h1 := leadsWith_string_false ("Extreme heat") ("Rain likely (60%+) ") (rs ++ ".") (by decide)
  have h2 := leadsWith_string_false ("Very hot") ("Rain likely (60%+) ") (rs ++ ".") (by decide)
  have h3 := leadsWith_string_false ("Severe cold") ("Rain likely (60%+) ") (rs ++ ".") (by decide)
  have h4 := leadsWith_string_false ("Cold conditions") ("Rain likely (60%+) ") (rs ++ ".") (by decide)
  have h5 := leadsWith_string_false ("Very high UV") ("Rain likely (60%+) ") (rs ++ ".") (by decide)
  have h6 := leadsWith_string_false ("High UV") ("Rain likely (60%+) ") (rs ++ ".") (by decide)
  have h7 := leadsWith_string_false ("Heavy rain") ("Rain likely (60%+) ") (rs ++ ".") (by decide)
  have h8 := leadsWith_string_true ("Rain likely") ("Rain likely (60%+) ") (rs ++ ".") (by decide)
  simp only [textRule, h1, h2, h3, h4, h5, h6, h7, h8, Bool.false_eq_true, if_false, if_true]

/-- Text classification: gustDangerText is recognised as the (gustR, danger)
text for every interpolated value. -/
theorem textRule_gustDangerText (g : ℚ) :
    textRule (gustDangerText g) = some (.gustR, .danger) := by
  unfold gustDangerText
  have h1 := leadsWith_string_false ("Extreme heat") ("Damaging wind gusts ") (toString g ++ " km/h.") (by decide)
  have h2 := leadsWith_string_false ("Very hot") ("Damaging wind gusts ") (toString g ++ " km/h.") (by decide)
  have h3 := leadsWith_string_false ("Severe cold") ("Damaging wind gusts ") (toString g ++ " km/h.") (by decide)
  have h4 := leadsWith_string_false ("Cold conditions") ("Damaging wind gusts ") (toString g ++ " km/h.") (by decide)
  have h5 := leadsWith_string_false ("Very high UV") ("Damaging wind gusts ") (toString g ++ " km/h.") (by decide)
  have h6 := leadsWith_string_false ("High UV") ("Damaging wind gusts ") (toString g ++ " km/h.") (by decide)
  have h7 := leadsWith_string_false ("Heavy rain") ("Damaging wind gusts ") (toString g ++ " km/h.") (by decide)
  have h8 := leadsWith_string_false ("Rain likely") ("Damaging wind gusts ") (toString g ++ " km/h.") (by decide)
  have h9 := leadsWith_string_true ("Damaging wind") ("Damaging wind gusts ") (toString g ++ " km/h.") (by decide)
  simp only [textRule, h1, h2, h3, h4, h5, h6, h7, h8, h9, Bool.false_eq_true, if_false, if_true]

/-- Text classification: gustWarnText is recognised as the (gustR, warning)
text for every interpolated value. -/
theorem textRule_gustWarnText (g : ℚ) :
    textRule (gustWarnText g) = some (.gustR, .warning) := by
  unfold gustWarnText
  have h1 := leadsWith_string_false ("Extreme heat") ("Strong wind gusts ") (toString g ++ " km/h.") (by decide)
  have h2 := leadsWith_string_false ("Very hot") ("Strong wind gusts ") (toString g ++ " km/h.") (by decide)
  have h3 := leadsWith_string_false ("Severe cold") ("Strong wind gusts ") (toString g ++ " km/h.") (by decide)
  have h4 := leadsWith_string_false ("Cold conditions") ("Strong wind gusts ") (toString g ++ " km/h.") (by decide)
  have h5 := leadsWith_string_false ("Very high UV") ("Strong wind gusts ") (toString g ++ " km/h.") (by decide)
  have h6 := leadsWith_string_false ("High UV") ("Strong wind gusts ") (toString g ++ " km/h.") (by decide)
  have h7 := leadsWith_string_false ("Heavy rain") ("Strong wind gusts ") (toString g ++ " km/h.") (by decide)
  have h8 := leadsWith_string_false ("Rain likely") ("Strong wind gusts ") (toString g ++ " km/h.") (by decide)
  have h9 := leadsWith_string_false ("Damaging wind") ("Strong wind gusts ") (toString g ++ " km/h.") (by decide)
  have h10 := leadsWith_string_true ("Strong wind") ("Strong wind gusts ") (toString g ++ " km/h.") (by decide)
  simp only [textRule, h1, h2, h3, h4, h5, h6, h7, h8, h9, h10, Bool.false_eq_true, if_false, if_true]

/-- Text classification: aqDangerText is recognised as the (aqR, danger)
text for every interpolated value. -/
theorem textRule_aqDangerText (r : ℤ) :
    textRule (aqDangerText r) = some (.aqR, .danger) := by
  unfold aqDangerText
  have h1 := leadsWith_string_false ("Extreme heat") ("Air quality: Very Poor (PM2.5 index ") (toString r ++ ").") (by decide)
  have h2 := leadsWith_string_false ("Very hot") ("Air quality: Very Poor (PM2.5 index ") (toString r ++ ").") (by decide)
  have h3 := leadsWith_string_false ("Severe cold") ("Air quality: Very Poor (PM2.5 index ") (toString r ++ ").") (by decide)
  have h4 := leadsWith_string_false ("Cold conditions") ("Air quality: Very Poor (PM2.5 index ") (toString r ++ ").") (by decide)
  have h5 := leadsWith_string_false ("Very high UV") ("Air quality: Very Poor (PM2.5 index ") (toString r ++ ").") (by decide)
  have h6 := leadsWith_string_false ("High UV") ("Air quality: Very Poor (PM2.5 index ") (toString r ++ ").") (by decide)
  have h7 := leadsWith_string_false ("Heavy rain") ("Air quality: Very Poor (PM2.5 index ") (toString r ++ ").") (by decide)
  have h8 := leadsWith_string_false ("Rain likely") ("Air quality: Very Poor (PM2.5 index ") (toString r ++ ").") (by decide)
  have h9 := leadsWith_string_false ("Damaging wind") ("Air quality: Very Poor (PM2.5 index ") (toString r ++ ").") (by decide)
  have h10 := leadsWith_string_false ("Strong wind") ("Air quality: Very Poor (PM2.5 index ") (toString r ++ ").") (by decide)
  have h11 := leadsWith_string_true ("Air quality: Very Poor") ("Air quality: Very Poor (PM2.5 index ") (toString r ++ ").") (by decide)
  simp only [textRule, h1, h2, h3, h4, h5, h6, h7, h8, h9, h10, h11, Bool.false_eq_true, if_false, if_true]

/-- Text classification: aqWarnText is recognised as the (aqR, warning)
text for every interpolated value. -/
theorem textRule_aqWarnText (r : ℤ) :
    textRule (aqWarnText r) = some (.aqR, .warning) := by
  unfold aqWarnText
  have h1 := leadsWith_string_false ("Extreme heat") ("Air quality: Poor (PM2.5 index ") (toString r ++ ").") (by decide)
  have h2 := leadsWith_string_false ("Very hot") ("Air quality: Poor (PM2.5 index ") (toString r ++ ").") (by decide)
  have h3 := leadsWith_string_false ("Severe cold") ("Air quality: Poor (PM2.5 index ") (toString r ++ ").") (by decide)
  have h4 := leadsWith_string_false ("Cold conditions") ("Air quality: Poor (PM2.5 index ") (toString r ++ ").") (by decide)
  have h5 := leadsWith_string_false ("Very high UV") ("Air quality: Poor (PM2.5 index ") (toString r ++ ").") (by decide)
  have h6 := leadsWith_string_false ("High UV") ("Air quality: Poor (PM2.5 index ") (toString r ++ ").") (by decide)
  have h7 := leadsWith_string_false ("Heavy rain") ("Air quality: Poor (PM2.5 index ") (toString r ++ ").") (by decide)
  have h8 := leadsWith_string_false ("Rain likely") ("Air quality: Poor (PM2.5 index ") (toString r ++ ").") (by decide)
  have h9 := leadsWith_string_false ("Damaging wind") ("Air quality: Poor (PM2.5 index ") (toString r ++ ").") (by decide)
  have h10 := leadsWith_string_false ("Strong wind") ("Air quality: Poor (PM2.5 index ") (toString r ++ ").") (by decide)
  have h11 := leadsWith_string_false ("Air quality: Very Poor") ("Air quality: Poor (PM2.5 index ") (toString r ++ ").") (by decide)
  have h12 := leadsWith_string_true ("Air quality: Poor") ("Air quality: Poor (PM2.5 index ") (toString r ++ ").") (by decide)
  simp only [textRule, h1, h2, h3, h4, h5, h6, h7, h8, h9, h10, h11, h12, Bool.false_eq_true, if_false, if_true]

/-- The rule-tier predicate is determined by the dedup key. -/
theorem ruleTierP_key (rt : RuleTag) (lv : AlertLevel) :
    ∀ a b : AlertItem, akey a = akey b → ruleTierP rt lv a = ruleTierP rt lv b := by
  intro a b h
  have h1 : a.level = b.level := congrArg Prod.fst h
  have h2 : a.text = b.text := congrArg Prod.snd h
  simp [ruleTierP, h1, h2]

/-- A key-determined predicate with a positive count survives dedup when
no seen key satisfies it. -/
theorem dedupGo_countP_pos (Q : AlertItem → Bool)
    (hQ : ∀ a b : AlertItem, akey a = akey b → Q a = Q b) :
    ∀ (l : List AlertItem) (seen : List (Option AlertLevel × String)),
      0 < l.countP Q → (∀ k ∈ seen, ∀ a : AlertItem, akey a = k → Q a = false) →
      0 < (dedupGo seen l).countP Q := by
  intro l
  induction l with
  | nil =>
    intro seen h
    simp [List.countP_nil] at h
  | cons a t ih =>
    intro seen hpos hseen
    unfold dedupGo
    by_cases hmem : akey a ∈ seen
    · rw [if_pos hmem]
      have hQa : Q a = false := hseen _ hmem a rfl
      rw [List.countP_cons, hQa] at hpos
      exact ih seen (by simpa using hpos) hseen
    · rw [if_neg hmem]
      by_cases hQa : Q a = true
      · rw [List.countP_cons, hQa]
        simp
      · have hQaF : Q a = false := by simpa using hQa
        rw [List.countP_cons, hQaF] at hpos
        have hpos' : 0 < t.countP Q := by simpa using hpos
        have hseen' : ∀ k ∈ akey a :: seen, ∀ b : AlertItem, akey b = k → Q b = false := by
          intro k hk b hb
          rcases List.mem_cons.mp hk with hk1 | hk1
          · rw [hk1] at hb
            rw [hQ b a hb]
            exact hQaF
          · exact hseen k hk1 b hb
        have hrec := ih (akey a :: seen) hpos' hseen'
        rw [List.countP_cons, hQaF]
        simpa using hrec

/-- A key-determined predicate counted once before dedup is counted once
after dedup. -/
theorem dedup_countP_eq_one (Q : AlertItem → Bool)
    (hQ : ∀ a b : AlertItem, akey a = akey b → Q a = Q b)
    {l : List AlertItem} (h1 : l.countP Q = 1) : (dedupGo [] l).countP Q = 1 := by
  have hle := (dedupGo_sublist [] l).countP_le Q
  have hpos := dedupGo_countP_pos Q hQ l [] (by omega) (by simp)
  omega

/-- A predicate counted zero before dedup is counted zero after dedup. -/
theorem dedup_countP_eq_zero (Q : AlertItem → Bool)
    {l : List AlertItem} (h0 : l.countP Q = 0) : (dedupGo [] l).countP Q = 0 := by
  have hle := (dedupGo_sublist [] l).countP_le Q
  omega

/-- Every UV-rule alert classifies as a UV text (warning or info tier). -/
theorem uvPart_tags (hourly : List HourPoint) :
    ∀ a ∈ uvPart hourly,
      textRule a.text = some (.uvR, .warning) ∨ textRule a.text = some (.uvR, .info) := by
  unfold uvPart
  dsimp only
  split_ifs with h1 h2
  · simp
  · intro a ha
    simp only [List.mem_singleton] at ha
    subst ha
    exact Or.inr (textRule_uvInfoText _)
  · intro a ha
    simp only [List.mem_singleton] at ha
    subst ha
    exact Or.inl (textRule_uvWarnText _)

/-- Every heat-rule alert classifies as a heat text. -/
theorem heatPart_tags (x : JSNum) :
    ∀ a ∈ heatPart x,
      textRule a.text = some (.heatR, .danger) ∨ textRule a.text = some (.heatR, .warning) := by
  rcases x with _ | v
  · simp [heatPart]
  · simp only [heatPart]
    split_ifs with hd hw
    · intro a ha
      simp only [List.mem_singleton] at ha
      subst ha
      exact Or.inl (textRule_heatDangerText _)
    · intro a ha
      simp only [List.mem_singleton] at ha
      subst ha
      exact Or.inr (textRule_heatWarnText _)
    · simp

/-- Every cold-rule alert classifies as a cold text. -/
theorem coldPart_tags (x : JSNum) :
    ∀ a ∈ coldPart x,
      textRule a.text = some (.coldR, .danger) ∨ textRule a.text = some (.coldR, .warning) := by
  rcases x with _ | v
  · simp [coldPart]
  · simp only [coldPart]
    split_ifs with hd hw
    · intro a ha
      simp only [List.mem_singleton] at ha
      subst ha
      exact Or.inl (textRule_coldDangerText _)
    · intro a ha
      simp only [List.mem_singleton] at ha
      subst ha
      exact Or.inr (textRule_coldWarnText _)
    · simp

/-- Every rain-rule alert classifies as a rain text. -/
theorem rainPart_tags (hourly : List HourPoint) :
    ∀ a ∈ rainPart hourly,
      textRule a.text = some (.rainR, .danger) ∨ textRule a.text = some (.rainR, .warning) := by
  unfold rainPart
  dsimp only
  split_ifs with h1 h2
  · simp
  · intro a ha
    simp only [List.mem_singleton] at ha
    subst ha
    exact Or.inr (textRule_rainWarnText _)
  · intro a ha
    simp only [List.mem_singleton] at ha
    subst ha
    exact Or.inl (textRule_rainDangerText _)

/-- Every gust-rule alert classifies as a gust text. -/
theorem gustPart_tags (x : JSNum) :
    ∀ a ∈ gustPart x,
      textRule a.text = some (.gustR, .danger) ∨ textRule a.text = some (.gustR, .warning) := by
  rcases x with _ | v
  · simp [gustPart]
  · simp only [gustPart]
    split_ifs with hd hw
    · intro a ha
      simp only [List.mem_singleton] at ha
      subst ha
      exact Or.inl (textRule_gustDangerText _)
    · intro a ha
      simp only [List.mem_singleton] at ha
      subst ha
      exact Or.inr (textRule_gustWarnText _)
    · simp

/-- Every air-quality-rule alert classifies as an air-quality text. -/
theorem aqPart_tags (x : JSNum) :
    ∀ a ∈ aqPart x,
      textRule a.text = some (.aqR, .danger) ∨ textRule a.text = some (.aqR, .warning) := by
  rcases x with _ | v
  · simp [aqPart]
  · simp only [aqPart]
    split_ifs with hd hw
    · intro a ha
      simp only [List.mem_singleton] at ha
      subst ha
      exact Or.inl (textRule_aqDangerText _)
    · intro a ha
      simp only [List.mem_singleton] at ha
      subst ha
      exact Or.inr (textRule_aqWarnText _)
    · simp

/-- A rule part whose texts carry two fixed tags counts zero for any
other rule-tier predicate. -/
theorem countP_part_zero_of_tags {part : List AlertItem} {t1 t2 : RuleTag × AlertLevel}
    (htags : ∀ a ∈ part, textRule a.text = some t1 ∨ textRule a.text = some t2)
    (rt : RuleTag) (lv : AlertLevel) (hne1 : t1 ≠ (rt, lv)) (hne2 : t2 ≠ (rt, lv)) :
    part.countP (ruleTierP rt lv) = 0 := by
  rw [List.countP_eq_zero]
  intro a ha
  rcases htags a ha with h | h <;> simp [ruleTierP, h, hne1, hne2]

/-- When the heat danger condition fires, the heat rule is exactly the
danger alert (the warning branch is the else of the same if). -/
theorem heatPart_danger_eval {h : ℚ} (h40 : 40 ≤ h) :
    heatPart (some h) =
      [{ text := heatDangerText (round h), level := some .danger,
         href := none, source := some srcName }] := by
  simp [heatPart, h40]

/-- When the cold danger condition fires, the cold rule is exactly the
danger alert. -/
theorem coldPart_danger_eval {l : ℚ} (hl : l ≤ -5) :
    coldPart (some l) =
      [{ text := coldDangerText (round l), level := some .danger,
         href := none, source := some srcName }] := by
  simp [coldPart, hl]

/-- When the gust danger condition fires, the gust rule is exactly the
danger alert. -/
theorem gustPart_danger_eval {g : ℚ} (hg : 80 ≤ g) :
    gustPart (some g) =
      [{ text := gustDangerText g, level := some .danger,
         href := none, source := some srcName }] := by
  simp [gustPart, hg]

/-- When the air-quality danger condition fires, the air-quality rule is
exactly the danger alert. -/
theorem aqPart_danger_eval {x : ℚ} (hx : 4 ≤ x) :
    aqPart (some x) =
      [{ text := aqDangerText (round x), level := some .danger,
         href := none, source := some srcName }] := by
  simp [aqPart, hx]

/-- When a rain danger window exists, the rain rule is exactly the danger
alert: the warning scan is the else branch and is skipped entirely. -/
theorem rainPart_danger_eval {hourly : List HourPoint}
    (hw : windows hourly rainDangerPred ≠ []) :
    rainPart hourly =
      [{ text := rainDangerText (rangesText hourly (windows hourly rainDangerPred)),
         level := some .danger, href := none, source := some srcName }] := by
  unfold rainPart
  dsimp only
  rw [if_neg]
  simpa using hw

/-- Claim C8: for each two-tier rule with a danger tier (heat, cold,
rain, wind gust, air quality), when the danger-tier condition fires the
output contains exactly one alert of that rule at danger level and no
warning-tier alert of the same rule; in particular a daily high of 41
with thresholds 35/40 yields one danger heat alert and zero warning heat
alerts, and a firing rain danger window suppresses the rain warning scan
entirely.  The UV rule is excluded: its two tiers are info and warning
in the source, with no danger tier. -/
theorem computeAlerts_tier_suppression (opts : AlertOpts) :
    (∀ h : ℚ, opts.hiC = some h → 40 ≤ h →
      (computeAlerts opts).countP (ruleTierP .heatR .danger) = 1 ∧
      (computeAlerts opts).countP (ruleTierP .heatR .warning) = 0) ∧
    (∀ l : ℚ, opts.loC = some l → l ≤ -5 →
      (computeAlerts opts).countP (ruleTierP .coldR .danger) = 1 ∧
      (computeAlerts opts).countP (ruleTierP .coldR .warning) = 0) ∧
    (windows opts.hourly rainDangerPred ≠ [] →
      (computeAlerts opts).countP (ruleTierP .rainR .danger) = 1 ∧
      (computeAlerts opts).countP (ruleTierP .rainR .warning) = 0) ∧
    (∀ g : ℚ, opts.gust_kmh = some g → 80 ≤ g →
      (computeAlerts opts).countP (ruleTierP .gustR .danger) = 1 ∧
      (computeAlerts opts).countP (ruleTierP .gustR .warning) = 0) ∧
    (∀ x : ℚ, opts.aqi_pm25_idx = some x → 4 ≤ x →
      (computeAlerts opts).countP (ruleTierP .aqR .danger) = 1 ∧
      (computeAlerts opts).countP (ruleTierP .aqR .warning) = 0) := by
  refine ⟨?_, ?_, ?_, ?_, ?_⟩
  · intro h hhi h40
    constructor
    · unfold computeAlerts
      apply dedup_countP_eq_one _ (ruleTierP_key _ _)
      rw [hhi, heatPart_danger_eval h40]
      simp only [List.countP_append]
      rw [countP_part_zero_of_tags (uvPart_tags opts.hourly) .heatR .danger (by decide) (by decide),
          countP_part_zero_of_tags (coldPart_tags opts.loC) .heatR .danger (by decide) (by decide),
          countP_part_zero_of_tags (rainPart_tags opts.hourly) .heatR .danger (by decide) (by decide),
          countP_part_zero_of_tags (gustPart_tags opts.gust_kmh) .heatR .danger (by decide) (by decide),
          countP_part_zero_of_tags (aqPart_tags opts.aqi_pm25_idx) .heatR .danger (by decide) (by decide)]
      simp [List.countP_cons, ruleTierP, textRule_heatDangerText]
    · unfold computeAlerts
      apply dedup_countP_eq_zero
      rw [hhi, heatPart_danger_eval h40]
      simp only [List.countP_append]
      rw [countP_part_zero_of_tags (uvPart_tags opts.hourly) .heatR .warning (by decide) (by decide),
          countP_part_zero_of_tags (coldPart_tags opts.loC) .heatR .warning (by decide) (by decide),
          countP_part_zero_of_tags (rainPart_tags opts.hourly) .heatR .warning (by decide) (by decide),
          countP_part_zero_of_tags (gustPart_tags opts.gust_kmh) .heatR .warning (by decide) (by decide),
          countP_part_zero_of_tags (aqPart_tags opts.aqi_pm25_idx) .heatR .warning (by decide) (by decide)]
      simp [List.countP_cons, ruleTierP, textRule_heatDangerText]
  · intro l hlo hl5
    constructor
    · unfold computeAlerts
      apply dedup_countP_eq_one _ (ruleTierP_key _ _)
      rw [hlo, coldPart_danger_eval hl5]
      simp only [List.countP_append]
      rw [countP_part_zero_of_tags (uvPart_tags opts.hourly) .coldR .danger (by decide) (by decide),
          countP_part_zero_of_tags (heatPart_tags opts.hiC) .coldR .danger (by decide) (by decide),
          countP_part_zero_of_tags (rainPart_tags opts.hourly) .coldR .danger (by decide) (by decide),
          countP_part_zero_of_tags (gustPart_tags opts.gust_kmh) .coldR .danger (by decide) (by decide),
          countP_part_zero_of_tags (aqPart_tags opts.aqi_pm25_idx) .coldR .danger (by decide) (by decide)]
      simp [List.countP_cons, ruleTierP, textRule_coldDangerText]
    · unfold computeAlerts
      apply dedup_countP_eq_zero
      rw [hlo, coldPart_danger_eval hl5]
      simp only [List.countP_append]
      rw [countP_part_zero_of_tags (uvPart_tags opts.hourly) .coldR .warning (by decide) (by decide),
          countP_part_zero_of_tags (heatPart_tags opts.hiC) .coldR .warning (by decide) (by decide),
          countP_part_zero_of_tags (rainPart_tags opts.hourly) .coldR .warning (by decide) (by decide),
          countP_part_zero_of_tags (gustPart_tags opts.gust_kmh) .coldR .warning (by decide) (by decide),
          countP_part_zero_of_tags (aqPart_tags opts.aqi_pm25_idx) .coldR .warning (by decide) (by decide)]
      simp [List.countP_cons, ruleTierP, textRule_coldDangerText]
  · intro hw
    constructor
    · unfold computeAlerts
      apply dedup_countP_eq_one _ (ruleTierP_key _ _)
      rw [rainPart_danger_eval hw]
      simp only [List.countP_append]
      rw [countP_part_zero_of_tags (uvPart_tags opts.hourly) .rainR .danger (by decide) (by decide),
          countP_part_zero_of_tags (heatPart_tags opts.hiC) .rainR .danger (by decide) (by decide),
          countP_part_zero_of_tags (coldPart_tags opts.loC) .rainR .danger (by decide) (by decide),
          countP_part_zero_of_tags (gustPart_tags opts.gust_kmh) .rainR .danger (by decide) (by decide),
          countP_part_zero_of_tags (aqPart_tags opts.aqi_pm25_idx) .rainR .danger (by decide) (by decide)]
      simp [List.countP_cons, ruleTierP, textRule_rainDangerText]
    · unfold computeAlerts
      apply dedup_countP_eq_zero
      rw [rainPart_danger_eval hw]
      simp only [List.countP_append]
      rw [countP_part_zero_of_tags (uvPart_tags opts.hourly) .rainR .warning (by decide) (by decide),
          countP_part_zero_of_tags (heatPart_tags opts.hiC) .rainR .warning (by decide) (by decide),
          countP_part_zero_of_tags (coldPart_tags opts.loC) .rainR .warning (by decide) (by decide),
          countP_part_zero_of_tags (gustPart_tags opts.gust_kmh) .rainR .warning (by decide) (by decide),
          countP_part_zero_of_tags (aqPart_tags opts.aqi_pm25_idx) .rainR .warning (by decide) (by decide)]
      simp [List.countP_cons, ruleTierP, textRule_rainDangerText]
  · intro g hgu hg8
    constructor
    · unfold computeAlerts
      apply dedup_countP_eq_one _ (ruleTierP_key _ _)
      rw [hgu, gustPart_danger_eval hg8]
      simp only [List.countP_append]
      rw [countP_part_zero_of_tags (uvPart_tags opts.hourly) .gustR .danger (by decide) (by decide),
          countP_part_zero_of_tags (heatPart_tags opts.hiC) .gustR .danger (by decide) (by decide),
          countP_part_zero_of_tags (coldPart_tags opts.loC) .gustR .danger (by decide) (by decide),
          countP_part_zero_of_tags (rainPart_tags opts.hourly) .gustR .danger (by decide) (by decide),
          countP_part_zero_of_tags (aqPart_tags opts.aqi_pm25_idx) .gustR .danger (by decide) (by decide)]
      simp [List.countP_cons, ruleTierP, textRule_gustDangerText]
    · unfold computeAlerts
      apply dedup_countP_eq_zero
      rw [hgu, gustPart_danger_eval hg8]
      simp only [List.countP_append]
      rw [countP_part_zero_of_tags (uvPart_tags opts.hourly) .gustR .warning (by decide) (by decide),
          countP_part_zero_of_tags (heatPart_tags opts.hiC) .gustR .warning (by decide) (by decide),
          countP_part_zero_of_tags (coldPart_tags opts.loC) .gustR .warning (by decide) (by decide),
          countP_part_zero_of_tags (rainPart_tags opts.hourly) .gustR .warning (by decide) (by decide),
          countP_part_zero_of_tags (aqPart_tags opts.aqi_pm25_idx) .gustR .warning (by decide) (by decide)]
      simp [List.countP_cons, ruleTierP, textRule_gustDangerText]
  · intro x haq hx4
    constructor
    · unfold computeAlerts
      apply dedup_countP_eq_one _ (ruleTierP_key _ _)
      rw [haq, aqPart_danger_eval hx4]
      simp only [List.countP_append]
      rw [countP_part_zero_of_tags (uvPart_tags opts.hourly) .aqR .danger (by decide) (by decide),
          countP_part_zero_of_tags (heatPart_tags opts.hiC) .aqR .danger (by decide) (by decide),
          countP_part_zero_of_tags (coldPart_tags opts.loC) .aqR .danger (by decide) (by decide),
          countP_part_zero_of_tags (rainPart_tags opts.hourly) .aqR .danger (by decide) (by decide),
          countP_part_zero_of_tags (gustPart_tags opts.gust_kmh) .aqR .danger (by decide) (by decide)]
      simp [List.countP_cons, ruleTierP, textRule_aqDangerText]
    · unfold computeAlerts
      apply dedup_countP_eq_zero
      rw [haq, aqPart_danger_eval hx4]
      simp only [List.countP_append]
      rw [countP_part_zero_of_tags (uvPart_tags opts.hourly) .aqR .warning (by decide) (by decide),
          countP_part_zero_of_tags (heatPart_tags opts.hiC) .aqR .warning (by decide) (by decide),
          countP_part_zero_of_tags (coldPart_tags opts.loC) .aqR .warning (by decide) (by decide),
          countP_part_zero_of_tags (rainPart_tags opts.hourly) .aqR .warning (by decide) (by decide),
          countP_part_zero_of_tags (gustPart_tags opts.gust_kmh) .aqR .warning (by decide) (by decide)]
      simp [List.countP_cons, ruleTierP, textRule_aqDangerText]

/-- Witness for tier suppression at a daily high of 41 and a one-hour
rain danger window: one danger heat alert and zero warning heat alerts,
one danger rain alert and zero warning rain alerts. -/
theorem computeAlerts_tier_suppression_witness :
    (computeAlerts tierWitnessOpts).countP (ruleTierP .heatR .danger) = 1 ∧
    (computeAlerts tierWitnessOpts).countP (ruleTierP .heatR .warning) = 0 ∧
    (computeAlerts tierWitnessOpts).countP (ruleTierP .rainR .danger) = 1 ∧
    (computeAlerts tierWitnessOpts).countP (ruleTierP .rainR .warning) = 0 :=
  ⟨((computeAlerts_tier_suppression tierWitnessOpts).1 41 rfl (by norm_num)).1,
   ((computeAlerts_tier_suppression tierWitnessOpts).1 41 rfl (by norm_num)).2,
   ((computeAlerts_tier_suppression tierWitnessOpts).2.2.1 (by decide)).1,
   ((computeAlerts_tier_suppression tierWitnessOpts).2.2.1 (by decide)).2⟩

/-- Invariant proof for the run-merging scan: relative to the original
list, every emitted window lies within bounds, satisfies the predicate
throughout, is maximal on both sides, and the windows are emitted in
strictly increasing disjoint order.  The state hypotheses say that an
open run (some s) started at s, satisfied the predicate up to the cursor
and was maximal on the left, and that a closed state at cursor i follows
either the list start or a predicate-false element. -/
theorem windowsGo_spec (pred : α → Bool) (d : α) (hours : List α) :
    ∀ (l : List α) (i : ℕ) (st : Option ℕ),
      hours.drop i = l →
      (st = none → (i = 0 ∨ l = [] ∨ pred (hours.getD (i - 1) d) = false)) →
      (∀ s, st = some s →
        s < i ∧ (∀ j, s ≤ j → j < i → pred (hours.getD j d) = true) ∧
        (s = 0 ∨ pred (hours.getD (s - 1) d) = false)) →
      (∀ w ∈ windowsGo pred i st l,
        (match st with | none => i | some s => s) ≤ w.1 ∧ w.1 ≤ w.2 ∧
        w.2 < hours.length ∧
        (∀ j, w.1 ≤ j → j ≤ w.2 → pred (hours.getD j d) = true) ∧
        (w.1 = 0 ∨ pred (hours.getD (w.1 - 1) d) = false) ∧
        (w.2 + 1 < hours.length → pred (hours.getD (w.2 + 1) d) = false)) ∧
      List.Pairwise (fun w w2 => w.2 < w2.1) (windowsGo pred i st l) := by
  intro l
  induction l with
  | nil =>
    intro i st hdrop hnone hsome
    constructor
    · intro w hw
      simp [windowsGo] at hw
    · simp [windowsGo]
  | cons h rest ih =>
    intro i st hdrop hnone hsome
    have hlen : i < hours.length := by
      by_contra hc
      have hnil : hours.drop i = [] := List.drop_eq_nil_of_le (by omega)
      rw [hdrop] at hnil
      simp at hnil
    have hget : hours.getD i d = h := by
      have h0 := List.getElem?_drop hours i 0
      rw [hdrop] at h0
      simp only [List.getElem?_cons_zero, Nat.add_zero] at h0
      rw [List.getD_eq_getElem?_getD, ← h0]
      rfl
    have hdrop1 : hours.drop (i + 1) = rest := by
      rw [← List.tail_drop, hdrop]
      rfl
    by_cases hok : pred h = true
    · rcases st with _ | s
      · by_cases hre : rest = []
        · subst hre
          have heq : windowsGo pred i none [h] = [(i, i)] := by
            simp [windowsGo, hok]
          rw [heq]
          have hlast : hours.length ≤ i + 1 := by
            rw [← List.drop_eq_nil_iff, hdrop1]
          constructor
          · intro w hw
            simp only [List.mem_singleton] at hw
            subst hw
            refine ⟨le_refl i, le_refl i, hlen, ?_, ?_, ?_⟩
            · intro j hj1 hj2
              have hj : j = i := by omega
              rw [hj, hget]
              exact hok
            · rcases hnone rfl with h0 | h0 | h0
              · exact Or.inl h0
              · simp at h0
              · exact Or.inr h0
            · intro hc
              omega
          · simp
        · have hreF : rest.isEmpty = false := by
            simpa using mt List.isEmpty_iff.mp hre
          have heq : windowsGo pred i none (h :: rest) =
              windowsGo pred (i + 1) (some i) rest := by
            simp [windowsGo, hok, hreF]
          rw [heq]
          have hleft : i = 0 ∨ pred (hours.getD (i - 1) d) = false := by
            rcases hnone rfl with h0 | h0 | h0
            · exact Or.inl h0
            · simp at h0
            · exact Or.inr h0
          have hih := ih (i + 1) (some i) hdrop1 (by intro hc; cases hc)
            (by
              intro s hs
              injection hs with hs
              subst hs
              refine ⟨by omega, ?_, hleft⟩
              intro j hj1 hj2
              have hj : j = i := by omega
              rw [hj, hget]
              exact hok)
          exact hih
      · obtain ⟨hsi, hrun, hsmax⟩ := hsome s rfl
        by_cases hre : rest = []
        · subst hre
          have heq : windowsGo pred i (some s) [h] = [(s, i)] := by
            simp [windowsGo, hok]
          rw [heq]
          have hlast : hours.length ≤ i + 1 := by
            rw [← List.drop_eq_nil_iff, hdrop1]
          constructor
          · intro w hw
            simp only [List.mem_singleton] at hw
            subst hw
            refine ⟨le_refl s, by omega, hlen, ?_, hsmax, ?_⟩
            · intro j hj1 hj2
              rcases Nat.lt_or_ge j i with hj | hj
              · exact hrun j hj1 hj
              · have hj' : j = i := by omega
                rw [hj', hget]
                exact hok
            · intro hc
              omega
          · simp
        · have hreF : rest.isEmpty = false := by
            simpa using mt List.isEmpty_iff.mp hre
          have heq : windowsGo pred i (some s) (h :: rest) =
              windowsGo pred (i + 1) (some s) rest := by
            simp [windowsGo, hok, hreF]
          rw [heq]
          have hih := ih (i + 1) (some s) hdrop1 (by intro hc; cases hc)
            (by
              intro s2 hs2
              injection hs2 with hs2
              subst hs2
              refine ⟨by omega, ?_, hsmax⟩
              intro j hj1 hj2
              rcases Nat.lt_or_ge j i with hj | hj
              · exact hrun j hj1 hj
              · have hj' : j = i := by omega
                rw [hj', hget]
                exact hok)
          exact hih
    · have hokF : pred h = false := by simpa using hok
      rcases st with _ | s
      · have heq : windowsGo pred i none (h :: rest) =
            windowsGo pred (i + 1) none rest := by
          simp [windowsGo, hokF]
        rw [heq]
        have hih := ih (i + 1) none hdrop1
          (by
            intro _
            refine Or.inr (Or.inr ?_)
            rw [Nat.add_sub_cancel, hget]
            exact hokF)
          (by intro s hs; cases hs)
        obtain ⟨ha, hp⟩ := hih
        constructor
        · intro w hw
          obtain ⟨c1, c2, c3, c4, c5, c6⟩ := ha w hw
          have c1' : i + 1 ≤ w.1 := c1
          exact ⟨show i ≤ w.1 by omega, c2, c3, c4, c5, c6⟩
        · exact hp
      · obtain ⟨hsi, hrun, hsmax⟩ := hsome s rfl
        have heq : windowsGo pred i (some s) (h :: rest) =
            (s, i - 1) :: windowsGo pred (i + 1) none rest := by
          simp [windowsGo, hokF]
        rw [heq]
        have hih := ih (i + 1) none hdrop1
          (by
            intro _
            refine Or.inr (Or.inr ?_)
            rw [Nat.add_sub_cancel, hget]
            exact hokF)
          (by intro s2 hs2; cases hs2)
        obtain ⟨ha, hp⟩ := hih
        constructor
        · intro w hw
          rcases List.mem_cons.mp hw with hw1 | hw1
          · subst hw1
            refine ⟨le_refl s, by omega, by omega, ?_, hsmax, ?_⟩
            · intro j hj1 hj2
              exact hrun j hj1 (by omega)
            · intro hc
              have hi1 : i - 1 + 1 = i := by omega
              rw [hi1, hget]
              exact hokF
          · obtain ⟨c1, c2, c3, c4, c5, c6⟩ := ha w hw1
            have c1' : i + 1 ≤ w.1 := c1
            exact ⟨show s ≤ w.1 by omega, c2, c3, c4, c5, c6⟩
        · rw [List.pairwise_cons]
          constructor
          · intro w2 hw2
            obtain ⟨c1, _⟩ := ha w2 hw2
            have c1' : i + 1 ≤ w2.1 := c1
            show i - 1 < w2.1
            omega
          · exact hp

/-- Claim C10: for every hourly sequence and predicate, the window list
of the run-merging scan consists of pairs (a, b) with a ≤ b < length such
that the predicate holds at every index of [a, b], each run is maximal
(the predicate is false at a-1 and at b+1 whenever those indices exist),
and the windows are pairwise disjoint in strictly increasing index order. -/
theorem windows_runs (hours : List α) (pred : α → Bool) (d : α) :
    (∀ w ∈ windows hours pred,
      w.1 ≤ w.2 ∧ w.2 < hours.length ∧
      (∀ j, w.1 ≤ j → j ≤ w.2 → pred (hours.getD j d) = true) ∧
      (0 < w.1 → pred (hours.getD (w.1 - 1) d) = false) ∧
      (w.2 + 1 < hours.length → pred (hours.getD (w.2 + 1) d) = false)) ∧
    List.Pairwise (fun w w2 => w.2 < w2.1) (windows hours pred) := by
  obtain ⟨ha, hp⟩ := windowsGo_spec pred d hours hours 0 none rfl
    (fun _ => Or.inl rfl) (by intro s hs; cases hs)
  constructor
  · intro w hw
    obtain ⟨c1, c2, c3, c4, c5, c6⟩ := ha w hw
    refine ⟨c2, c3, c4, ?_, c6⟩
    intro hpos
    rcases c5 with h0 | h0
    · omega
    · exact h0
  · exact hp

/-- Witness for the window scan properties on a concrete list: the scan
of [1, 7, 7, 2] for values at least 5 gives the single window (1, 2),
whose interior satisfies the predicate. -/
theorem windows_runs_witness :
    ((fun n => decide (5 ≤ n)) ([1, 7, 7, 2].getD 1 0)) = true :=
  ((windows_runs [1, 7, 7, 2] (fun n => decide (5 ≤ n)) 0).1 (1, 2)
    (by decide)).2.2.1 1 (le_refl 1) (by decide)
